import Mathlib

/-!
Shallow embedding of the arocapi request-processing core
(Language-Research-Technology/arocapi), translated from the TypeScript
source: the transformation pipeline and reference resolver
(src/transformers/default.ts), the search-query compiler and hit
reconciliation (src/routes/search.ts), the entity routes
(src/routes/entity.ts, src/routes/entities.ts), the content-delivery
negotiator (src/routes/file.ts, src/routes/crate.ts), the error helpers
(src/utils/errors.ts) and the plugin registration checks (src/app.ts).

JavaScript string-ish truthiness (`if (x)` where `x : string | null |
undefined`) is modelled explicitly: `none` (null/undefined) and the empty
string are falsy, every other string is truthy.
-/

namespace Arocapi

/-- JS truthiness for an optional string value: null/undefined and the
empty string are falsy. -/
def truthyOptStr : Option String → Bool
  | none => false
  | some s => !s.isEmpty

/-- JS `Map` built from a list of key/value entries
(`new Map(entries)`): a later entry for the same key overwrites an
earlier one, so `get` returns the last binding. -/
def jsMapGet {α : Type} (entries : List (String × α)) (k : String) : Option α :=
  entries.foldl (fun acc p => if p.1 = k then some p.2 else acc) none

/-! ## Data model (prisma Entity/File rows and transformer shapes,
from src/transformers/default.ts) -/

/-- A canonical `Entity` row as read from the record store.  Only the
fields the verified code reads are modelled; the store-only numeric
primary key, timestamps and the opaque `meta` bag are never inspected by
the routes or transformers under verification. -/
structure Entity where
  rocrateId : String
  name : String
  description : String
  entityType : String
  fileId : Option String
  memberOf : Option String
  rootCollection : Option String
  metadataLicenseId : String
  contentLicenseId : String
  deriving Repr, DecidableEq

/-- A canonical `File` row as read from the record store
(fields the file routes read). -/
structure FileRecord where
  fileId : String
  filename : String
  mediaType : String
  size : Nat
  memberOf : String
  rootCollection : String
  contentLicenseId : String
  deriving Repr, DecidableEq

/-- EntityReference — a resolved parent pointer `{id, name}`. -/
structure EntityReference where
  id : String
  name : String
  deriving Repr, DecidableEq

/-- BaseEntity — output of the base transformation with unresolved
(string) references.  The TS type is a union where `fileId` exists only
for the MediaObject variant; it is flattened here to an optional field
(`none` = field absent). -/
structure BaseEntity where
  id : String
  name : String
  description : String
  entityType : String
  memberOf : Option String
  rootCollection : Option String
  metadataLicenseId : String
  contentLicenseId : String
  fileId : Option String
  deriving Repr, DecidableEq

/-- StandardEntity — the shape with resolved `memberOf` /
`rootCollection` references (`none` = `null`). -/
structure StandardEntity where
  id : String
  name : String
  description : String
  entityType : String
  memberOf : Option EntityReference
  rootCollection : Option EntityReference
  metadataLicenseId : String
  contentLicenseId : String
  fileId : Option String
  deriving Repr, DecidableEq

/-- AccessInfo block attached by the access transformer. -/
structure AccessInfo where
  metadata : Bool
  content : Bool
  contentAuthorizationUrl : Option String
  deriving Repr, DecidableEq

/-- AuthorisedEntity = `StandardEntity & {access}`. -/
structure AuthorisedEntity extends StandardEntity where
  access : AccessInfo
  deriving Repr, DecidableEq

/-- The shape actually produced by the access stage of the search and
entities-listing routes in the source: those routes feed the
`BaseEntity` produced by `baseEntityTransformer` (references still raw
strings) to the access transformer, so the authorised value there is
`BaseEntity & {access}`. -/
structure AuthorisedBaseEntity extends BaseEntity where
  access : AccessInfo
  deriving Repr, DecidableEq

/-! ## Base transformers (src/transformers/default.ts) -/

/-- baseEntityTransformer — transforms a raw database entity to the
base entity shape with unresolved references
(src/transformers/default.ts lines 93–118).  The MediaObject branch
drops a missing/falsy `fileId` and otherwise carries it over. -/
def baseEntityTransformer (entity : Entity) : BaseEntity :=
  let base : BaseEntity :=
    { id := entity.rocrateId
      name := entity.name
      description := entity.description
      entityType := entity.entityType
      memberOf := entity.memberOf
      rootCollection := entity.rootCollection
      metadataLicenseId := entity.metadataLicenseId
      contentLicenseId := entity.contentLicenseId
      fileId := none }
  if base.entityType = "http://schema.org/MediaObject" then
    if !truthyOptStr entity.fileId then base
    else { base with fileId := entity.fileId }
  else base

/-- AllPublicAccessTransformer (src/transformers/default.ts): spreads
the input and grants full access.  The source's object spread is
shape-generic; this is its action at the `StandardEntity` shape. -/
def AllPublicAccessTransformer (entity : StandardEntity) : AuthorisedEntity :=
  { toStandardEntity := entity
    access := { metadata := true, content := true, contentAuthorizationUrl := none } }

/-- The action of `AllPublicAccessTransformer` at the `BaseEntity` shape —
the shape the search and entities-listing routes actually pass to the
access stage. -/
def AllPublicAccessTransformerBase (entity : BaseEntity) : AuthorisedBaseEntity :=
  { toBaseEntity := entity
    access := { metadata := true, content := true, contentAuthorizationUrl := none } }

/-! ## Reference resolver (src/transformers/default.ts lines 197–223) -/

/-- The slice of a record `resolveEntityReferences` reads
(`Array<{memberOf, rootCollection}>`). -/
structure RefRecord where
  memberOf : Option String
  rootCollection : Option String
  deriving Repr, DecidableEq

/-- Projection of an `Entity` row to the reference-resolver input
slice. -/
def Entity.toRefRecord (e : Entity) : RefRecord :=
  { memberOf := e.memberOf, rootCollection := e.rootCollection }

/-- JS `Set.add` in insertion order. -/
def setAdd (s : List String) (x : String) : List String :=
  if s.contains x then s else s ++ [x]

/-- The `refIds` set collected by `resolveEntityReferences`: the union
of all truthy `memberOf` / `rootCollection` values across the batch,
in first-insertion order. -/
def collectRefIds (entities : List RefRecord) : List String :=
  entities.foldl
    (fun acc e =>
      let acc := if truthyOptStr e.memberOf then setAdd acc (e.memberOf.getD "") else acc
      if truthyOptStr e.rootCollection then setAdd acc (e.rootCollection.getD "") else acc)
    []

/-- resolveEntityReferences — batch-resolves parent identifiers into
`{id, name}` references.  The store is modelled as the list of entity
rows; `findMany where rocrateId in refIds` is a filter over it.  The
first component counts the store round trips the call issues (0 on the
early return for an empty id set, otherwise exactly the one batched
`findMany`); the second is the returned map as its entry list. -/
def resolveEntityReferences (entities : List RefRecord) (store : List Entity) :
    Nat × List (String × EntityReference) :=
  let refIds := collectRefIds entities
  if refIds.length = 0 then (0, [])
  else
    let refs := store.filter (fun e => refIds.contains e.rocrateId)
    (1, refs.map (fun r => (r.rocrateId, { id := r.rocrateId, name := r.name })))

/-! ## Search query compiler (src/routes/search.ts) -/

/-- A lat/lng corner of the request bounding box.  Coordinates are JS
numbers that the compiler only copies, never computes with, so they are
modelled as rationals. -/
structure LatLng where
  lat : Rat
  lng : Rat
  deriving Repr, DecidableEq

/-- Request `boundingBox` = top-right and bottom-left corners. -/
structure BoundingBox where
  topRight : LatLng
  bottomLeft : LatLng
  deriving Repr, DecidableEq

/-- A lat/lon point in the form the engine expects. -/
structure GeoPoint where
  lat : Rat
  lon : Rat
  deriving Repr, DecidableEq

/-- Diagonal corners of a compiled geo box (engine convention). -/
structure GeoBounds where
  top_left : GeoPoint
  bottom_right : GeoPoint
  deriving Repr, DecidableEq

/-- A clause of the compiled boolean query. -/
inductive QueryClause where
  | multiMatch (query : String) (fields : List String) (matchType : String) (fuzziness : String)
  | queryString (query : String) (fields : List String) (defaultOperator : String)
  | terms (field : String) (values : List String)
  | geoBoundingBox (field : String) (bounds : GeoBounds)
  deriving Repr, DecidableEq

/-- The compiled `bool` query: `must` and `filter` clause lists. -/
structure BoolQuery where
  must : List QueryClause
  filter : List QueryClause
  deriving Repr, DecidableEq

/-- The `searchType` request parameter. -/
inductive SearchType where
  | basic
  | advanced
  deriving Repr, DecidableEq

/-- buildQuery (src/routes/search.ts lines 35–96): basic mode pushes a
fuzzy multi-match, advanced mode a query-string clause; each
field→values filter becomes a terms filter clause; a bounding box
becomes a geo-bounding-box filter whose `top_left` takes the request's
top-right latitude with the bottom-left longitude and `bottom_right`
the bottom-left latitude with the top-right longitude. -/
def buildQuery (searchType : SearchType) (query : String)
    (filters : Option (List (String × List String)))
    (boundingBox : Option BoundingBox) : BoolQuery :=
  let must : List QueryClause :=
    match searchType with
    | .basic => [.multiMatch query ["name^2", "description"] "best_fields" "AUTO"]
    | .advanced => [.queryString query ["name^2", "description"] "AND"]
  let filter : List QueryClause :=
    match filters with
    | none => []
    | some fs => fs.map (fun p => .terms p.1 p.2)
  let filter :=
    match boundingBox with
    | none => filter
    | some bb =>
        filter ++
          [.geoBoundingBox "location"
            { top_left := { lat := bb.topRight.lat, lon := bb.bottomLeft.lng }
              bottom_right := { lat := bb.bottomLeft.lat, lon := bb.topRight.lng } }]
  { must := must, filter := filter }

/-- A `terms` facet aggregation request. -/
structure TermsAgg where
  field : String
  size : Nat
  deriving Repr, DecidableEq

/-- A `geohash_grid` aggregation request. -/
structure GeohashGridAgg where
  field : String
  precision : Nat
  bounds : GeoBounds
  deriving Repr, DecidableEq

/-- The compiled aggregation set. -/
structure Aggregations where
  inLanguage : TermsAgg
  mediaType : TermsAgg
  communicationMode : TermsAgg
  entityType : TermsAgg
  geohash_grid : Option GeohashGridAgg
  deriving Repr, DecidableEq

/-- buildAggregations (src/routes/search.ts lines 99–151): the four
terms aggregations are always requested with 20 buckets; the geohash
grid is added only under `if (geohashPrecision && boundingBox)` —
JS numeric truthiness makes precision 0 skip it. -/
def buildAggregations (geohashPrecision : Nat) (boundingBox : Option BoundingBox) :
    Aggregations :=
  { inLanguage := { field := "inLanguage", size := 20 }
    mediaType := { field := "mediaType", size := 20 }
    communicationMode := { field := "communicationMode", size := 20 }
    entityType := { field := "entityType", size := 20 }
    geohash_grid :=
      match boundingBox with
      | none => none
      | some bb =>
          if geohashPrecision ≠ 0 then
            some
              { field := "location"
                precision := geohashPrecision
                bounds :=
                  { top_left := { lat := bb.topRight.lat, lon := bb.bottomLeft.lng }
                    bottom_right := { lat := bb.bottomLeft.lat, lon := bb.topRight.lng } } }
          else none }

/-- The first geo-bounding-box clause in a clause list, if any. -/
def findGeoBounds : List QueryClause → Option GeoBounds
  | [] => none
  | .geoBoundingBox _ bounds :: _ => some bounds
  | _ :: rest => findGeoBounds rest

/-- Extract the geo-bounding-box filter clause compiled into a query,
if any (first such clause). -/
def geoFilterOf (q : BoolQuery) : Option GeoBounds :=
  findGeoBounds q.filter

/-- The corner remap the compiler applies to a request bounding box. -/
def remapBounds (bb : BoundingBox) : GeoBounds :=
  { top_left := { lat := bb.topRight.lat, lon := bb.bottomLeft.lng }
    bottom_right := { lat := bb.bottomLeft.lat, lon := bb.topRight.lng } }

/-! ## Entity routes -/

/-- The store model of `prisma.entity.findFirst` keyed by rocrateId, over the store
modelled as the list of rows. -/
def findFirstEntity (store : List Entity) (id : String) : Option Entity :=
  store.find? (fun e => e.rocrateId = id)

/-- The single-entity lookup route's transformed output before the
access stage (src/routes/entity.ts handler body): find the row, resolve
`memberOf`/`rootCollection` through `resolveEntityReferences`, apply
`baseEntityTransformer`, then override the two reference fields with
`base.memberOf ? (refMap.get(base.memberOf) ?? null) : null` (and
likewise for `rootCollection`).  `none` models the 404 path. -/
def entityRouteStandardEntity (store : List Entity) (id : String) :
    Option StandardEntity :=
  match findFirstEntity store id with
  | none => none
  | some entity =>
      let refMap := (resolveEntityReferences [entity.toRefRecord] store).2
      let base := baseEntityTransformer entity
      some
        { id := base.id
          name := base.name
          description := base.description
          entityType := base.entityType
          memberOf :=
            if truthyOptStr base.memberOf then jsMapGet refMap (base.memberOf.getD "")
            else none
          rootCollection :=
            if truthyOptStr base.rootCollection then
              jsMapGet refMap (base.rootCollection.getD "")
            else none
          metadataLicenseId := base.metadataLicenseId
          contentLicenseId := base.contentLicenseId
          fileId := base.fileId }

/-- Apply the ordered list of caller-supplied entity transformers
(stage 3), strictly sequentially. -/
def applyEntityTransformers (ts : List (AuthorisedBaseEntity → AuthorisedBaseEntity))
    (e : AuthorisedBaseEntity) : AuthorisedBaseEntity :=
  ts.foldl (fun acc t => t acc) e

/-- The entities-listing route's per-record pipeline
(src/routes/entities.ts): `baseEntityTransformer` → access transformer
→ entity transformers, with no reference resolution, applied to each
fetched row. -/
def entitiesRouteTransform (accessT : BaseEntity → AuthorisedBaseEntity)
    (entityTs : List (AuthorisedBaseEntity → AuthorisedBaseEntity))
    (dbEntities : List Entity) : List AuthorisedBaseEntity :=
  dbEntities.map (fun e => applyEntityTransformers entityTs (accessT (baseEntityTransformer e)))

/-! ## Search hit reconciliation (src/routes/search.ts lines 204–258) -/

/-- A search-engine hit as the route reads it: `_source.rocrateId`
(possibly missing), `_score` and `highlight` (opaque here). -/
structure SearchHit where
  rocrateId : Option String
  score : Int
  highlight : Option String
  deriving Repr, DecidableEq

/-- Search-specific metadata merged into each returned entity. -/
structure SearchExtra where
  score : Int
  highlight : Option String
  deriving Repr, DecidableEq

/-- One element of the search response's `entities` array: the
transformed entity plus its `searchExtra` sibling. -/
structure SearchResultItem where
  result : AuthorisedBaseEntity
  searchExtra : SearchExtra
  deriving Repr, DecidableEq

/-- The hit identifiers the route collects:
`hits.map(h => h._source?.rocrateId).filter(Boolean)` — JS `Boolean`
drops both missing and empty-string identifiers. -/
def hitRocrateIds (hits : List SearchHit) : List String :=
  hits.filterMap (fun h => if truthyOptStr h.rocrateId then h.rocrateId else none)

/-- The `entityMap` the route builds: batched
`findMany where rocrateId in rocrateIds` over the store, then
`new Map(dbEntities.map(e => [e.rocrateId, e]))`. -/
def searchEntityMap (store : List Entity) (hits : List SearchHit) :
    List (String × Entity) :=
  (store.filter (fun e => (hitRocrateIds hits).contains e.rocrateId)).map
    (fun e => (e.rocrateId, e))

/-- The per-hit reconciliation of src/routes/search.ts lines 222–258,
parameterised by the caller-supplied access transformer and entity
transformers: a hit with a falsy `rocrateId` throws
(`Missing rocrateId in search hit`, failing the whole `Promise.all`);
a hit whose identifier is absent from `entityMap` logs a warning and
contributes `null`, removed by the final `.filter(Boolean)`; otherwise
the row runs the pipeline and `searchExtra` is merged in.  Returns the
entities array together with the warnings logged, or the thrown
message. -/
def searchProcessHits (accessT : BaseEntity → AuthorisedBaseEntity)
    (entityTs : List (AuthorisedBaseEntity → AuthorisedBaseEntity))
    (store : List Entity) (hits : List SearchHit) :
    Except String (List SearchResultItem × List String) := do
  let entityMap := searchEntityMap store hits
  let mapped ← hits.mapM (fun h =>
    if !truthyOptStr h.rocrateId then
      Except.error "Missing rocrateId in search hit"
    else
      let id := h.rocrateId.getD ""
      match jsMapGet entityMap id with
      | none =>
          Except.ok (none,
            some ("Entity " ++ id ++ " found in OpenSearch but not in database"))
      | some dbEntity =>
          let standardEntity := baseEntityTransformer dbEntity
          let authorisedEntity := accessT standardEntity
          let result := applyEntityTransformers entityTs authorisedEntity
          Except.ok
            (some { result := result
                    searchExtra := { score := h.score, highlight := h.highlight } },
             none))
  return (mapped.filterMap Prod.fst, mapped.filterMap Prod.snd)

/-- Store lookup as JS `Map` semantics over the whole store: the last
row carrying the identifier (unique in the database, so normally the
only one). -/
def storeLookup (store : List Entity) (id : String) : Option Entity :=
  jsMapGet (store.map (fun e => (e.rocrateId, e))) id

/-- The full pipeline a reconciled hit's row goes through in the search
route. -/
def searchPipeline (accessT : BaseEntity → AuthorisedBaseEntity)
    (entityTs : List (AuthorisedBaseEntity → AuthorisedBaseEntity))
    (e : Entity) : AuthorisedBaseEntity :=
  applyEntityTransformers entityTs (accessT (baseEntityTransformer e))

/-! ## Plugin registration (src/app.ts lines 108–159) -/

/-- The options object passed when registering the plugin.  Each
dependency is modelled by its presence (`none` = the caller omitted it /
passed `undefined`), which is all the registration guards
(`if (!x) throw`) inspect. -/
structure AppOptions where
  prisma : Option Unit
  opensearch : Option Unit
  accessTransformer : Option Unit
  entityTransformers : Option Unit
  fileAccessTransformer : Option Unit
  fileTransformers : Option Unit
  fileHandler : Option Unit
  roCrateHandler : Option Unit
  deriving Repr, DecidableEq

/-- Registration of the `app` plugin (src/app.ts): the guard chain throws
before any route is registered; on success the six routes are
registered.  `Except.error` is the thrown message, `Except.ok` the list
of registered route plugins. -/
def appRegister (options : AppOptions) : Except String (List String) :=
  if options.prisma.isNone then .error "Prisma client is required"
  else if options.opensearch.isNone then .error "OpenSearch client is required"
  else if options.accessTransformer.isNone then .error "accessTransformer is required"
  else if options.fileAccessTransformer.isNone then .error "fileAccessTransformer is required"
  else if options.fileHandler.isNone then .error "fileHandler is required"
  else if options.roCrateHandler.isNone then .error "roCrateHandler is required"
  else .ok ["entities", "entity", "files", "file", "crate", "search"]

/-! ## Content delivery (src/routes/file.ts and src/routes/crate.ts) -/

/-- Metadata returned by handlers.  `lastModified` (a JS `Date`,
always truthy when present) is modelled by its UTC string. -/
structure FileMetadata where
  contentType : String
  contentLength : Nat
  etag : Option String
  lastModified : Option String
  deriving Repr, DecidableEq

/-- FileResult — the closed union a content handler may return.
`stream` carries the handler's readable stream, identified by an opaque
content token. -/
inductive FileResult where
  | redirect (url : String)
  | stream (stream : String) (metadata : FileMetadata)
  | file (path : String) (metadata : FileMetadata) (accelPath : Option String)
  deriving Repr, DecidableEq

/-- What a handler invocation did: produced a result, returned the falsy
sentinel (`false`), or threw. -/
inductive HandlerOutcome (α : Type) where
  | ok (value : α)
  | falsy
  | throws (message : String)
  deriving Repr, DecidableEq

/-- A response body as the routes construct it. -/
inductive ResponseBody where
  /-- An empty payload (`reply.send()` with no argument). -/
  | empty
  /-- the `{location: url}` JSON body of the no-redirect path. -/
  | jsonLocation (url : String)
  /-- a standard error envelope `{error: {code, message}}`
  (src/utils/errors.ts). -/
  | jsonError (code : String) (message : String)
  /-- the handler-provided readable stream piped through. -/
  | streamBody (stream : String)
  /-- The bytes of the file at `path` (`createReadStream(path)`). -/
  | fileBody (path : String)
  deriving Repr, DecidableEq

/-- An HTTP response: status, headers in the order the route set them,
body. -/
structure HttpResponse where
  status : Nat
  headers : List (String × String)
  body : ResponseBody
  deriving Repr, DecidableEq

/-- Body built by `createNotFoundError` (src/utils/errors.ts). -/
def notFoundBody (message : String) : ResponseBody :=
  .jsonError "NOT_FOUND" message

/-- Body built by `createInternalError()` with its default message
(src/utils/errors.ts). -/
def internalErrorBody : ResponseBody :=
  .jsonError "INTERNAL_ERROR" "Internal server error"

/-- setFileHeaders (src/routes/file.ts and src/routes/crate.ts):
Content-Type, Content-Length, then ETag and Last-Modified when
truthy. -/
def setFileHeaders (metadata : FileMetadata) : List (String × String) :=
  [("Content-Type", metadata.contentType),
   ("Content-Length", toString metadata.contentLength)] ++
  (if truthyOptStr metadata.etag then [("ETag", metadata.etag.getD "")] else []) ++
  (match metadata.lastModified with
   | some d => [("Last-Modified", d)]
   | none => [])

/-- Parsed query of GET /file/:id (src/routes/file.ts `querySchema`),
after zod validation and defaulting. -/
structure FileQuery where
  disposition : String
  filename : Option String
  noRedirect : Bool
  deriving Repr, DecidableEq

/-- The store model of `prisma.file.findFirst` keyed by fileId. -/
def findFirstFile (store : List FileRecord) (id : String) : Option FileRecord :=
  store.find? (fun f => f.fileId = id)

/-- GET /file/:id (src/routes/file.ts): look up the file row, invoke the
file handler's `get`, and convert its `FileResult` to wire behaviour.
The handler invocation is supplied as its outcome for this request. -/
def fileGetRoute (store : List FileRecord) (id : String) (query : FileQuery)
    (handlerGet : FileRecord → HandlerOutcome FileResult) : HttpResponse :=
  match findFirstFile store id with
  | none =>
      { status := 404, headers := [], body := notFoundBody "The requested file was not found" }
  | some file =>
      match handlerGet file with
      | .throws _ => { status := 500, headers := [], body := internalErrorBody }
      | .falsy =>
          { status := 404, headers := []
            body := notFoundBody "The requested file could not be retrieved" }
      | .ok result =>
          match result with
          | .redirect url =>
              if query.noRedirect then
                { status := 200, headers := [], body := .jsonLocation url }
              else
                { status := 302, headers := [("Location", url)], body := .empty }
          | .stream s metadata =>
              let filename :=
                if truthyOptStr query.filename then query.filename.getD "" else file.filename
              { status := 200
                headers := setFileHeaders metadata ++
                  [("Content-Disposition", query.disposition ++ "; filename=\x22" ++ filename ++ "\x22")]
                body := .streamBody s }
          | .file path metadata accelPath =>
              let filename :=
                if truthyOptStr query.filename then query.filename.getD "" else file.filename
              let headers := setFileHeaders metadata ++
                [("Content-Disposition", query.disposition ++ "; filename=\x22" ++ filename ++ "\x22")]
              if truthyOptStr accelPath then
                { status := 200
                  headers := headers ++ [("X-Accel-Redirect", accelPath.getD "")]
                  body := .empty }
              else
                { status := 200, headers := headers, body := .fileBody path }

/-- HEAD /file/:id (src/routes/file.ts): look up the file row, invoke
the handler's `head`, 404 on the falsy sentinel, 500 on a throw, else
set the metadata headers and send an empty 200. -/
def fileHeadRoute (store : List FileRecord) (id : String)
    (handlerHead : FileRecord → HandlerOutcome FileMetadata) : HttpResponse :=
  match findFirstFile store id with
  | none =>
      { status := 404, headers := [], body := notFoundBody "The requested file was not found" }
  | some file =>
      match handlerHead file with
      | .throws _ => { status := 500, headers := [], body := internalErrorBody }
      | .falsy =>
          { status := 404, headers := []
            body := notFoundBody "The requested file metadata was not found" }
      | .ok metadata =>
          { status := 200, headers := setFileHeaders metadata, body := .empty }

/-- GET /entity/:id/rocrate (src/routes/crate.ts): look up the entity
row, invoke the RO-Crate handler's `get`; a redirect result always
replies 302 (no no-redirect option here); otherwise the content type is
forced to `application/ld+json` before the metadata headers are set,
then stream / accel-path / read-from-path exactly as the file route. -/
def crateGetRoute (store : List Entity) (id : String)
    (handlerGet : Entity → HandlerOutcome FileResult) : HttpResponse :=
  match findFirstEntity store id with
  | none =>
      { status := 404, headers := []
        body := notFoundBody "The requested entity was not found" }
  | some entity =>
      match handlerGet entity with
      | .throws _ => { status := 500, headers := [], body := internalErrorBody }
      | .falsy =>
          { status := 404, headers := []
            body := notFoundBody "The requested RO-Crate could not be retrieved" }
      | .ok result =>
          match result with
          | .redirect url =>
              { status := 302, headers := [("Location", url)], body := .empty }
          | .stream s metadata =>
              let metadata := { metadata with contentType := "application/ld+json" }
              { status := 200, headers := setFileHeaders metadata, body := .streamBody s }
          | .file path metadata accelPath =>
              let metadata := { metadata with contentType := "application/ld+json" }
              let headers := setFileHeaders metadata
              if truthyOptStr accelPath then
                { status := 200
                  headers := headers ++ [("X-Accel-Redirect", accelPath.getD "")]
                  body := .empty }
              else
                { status := 200, headers := headers, body := .fileBody path }

/-! ## Runtime (untyped) view of the base entity transformer

`baseEntityTransformer` is a JavaScript function: at runtime it can be
applied to any object, reading absent fields as `undefined`.  This view
models an arbitrary object by the fields the function may read or
write, each optional (`none` = the field is absent / `undefined`), and
is used to examine re-applying stage 1 to its own output shape. -/

/-- An arbitrary JS object restricted to the fields
`baseEntityTransformer` reads or writes. -/
structure JsEntityObject where
  rocrateId : Option String
  id : Option String
  name : Option String
  description : Option String
  entityType : Option String
  fileId : Option String
  memberOf : Option String
  rootCollection : Option String
  metadataLicenseId : Option String
  contentLicenseId : Option String
  deriving Repr, DecidableEq

/-- baseEntityTransformer under JS runtime semantics: the output
object literal has exactly the listed fields (`rocrateId` is absent
from it), `id` is read from the input's `rocrateId` (absent ⇒
`undefined`), and the MediaObject branch compares `entityType` with
strict equality (`undefined === "…"` is false). -/
def baseEntityTransformerJs (entity : JsEntityObject) : JsEntityObject :=
  let base : JsEntityObject :=
    { rocrateId := none
      id := entity.rocrateId
      name := entity.name
      description := entity.description
      entityType := entity.entityType
      memberOf := entity.memberOf
      rootCollection := entity.rootCollection
      metadataLicenseId := entity.metadataLicenseId
      contentLicenseId := entity.contentLicenseId
      fileId := none }
  if base.entityType = some "http://schema.org/MediaObject" then
    if !truthyOptStr entity.fileId then base
    else { base with fileId := entity.fileId }
  else base

/-- The typed view of an entity row as the JS object the transformer
receives at its intended call site. -/
def Entity.toJsObject (e : Entity) : JsEntityObject :=
  { rocrateId := some e.rocrateId
    id := none
    name := some e.name
    description := some e.description
    entityType := some e.entityType
    fileId := e.fileId
    memberOf := e.memberOf
    rootCollection := e.rootCollection
    metadataLicenseId := some e.metadataLicenseId
    contentLicenseId := some e.contentLicenseId }

/-- The JS-object view of a `BaseEntity` value (the transformer's own
output shape: no `rocrateId` field). -/
def BaseEntity.toJsObject (b : BaseEntity) : JsEntityObject :=
  { rocrateId := none
    id := some b.id
    name := some b.name
    description := some b.description
    entityType := some b.entityType
    fileId := b.fileId
    memberOf := b.memberOf
    rootCollection := b.rootCollection
    metadataLicenseId := some b.metadataLicenseId
    contentLicenseId := some b.contentLicenseId }

/-- A list of compiled terms filter clauses never contributes a
geo-bounding-box clause. -/
theorem findGeoBounds_terms_append (l : List (String × List String))
    (rest : List QueryClause) :
    findGeoBounds ((l.map fun p => QueryClause.terms p.1 p.2) ++ rest) =
      findGeoBounds rest := by
  induction l with
  | nil => rfl
  | cons a t ih => simpa [findGeoBounds] using ih

/-! ## Sanity: the typed transformer and its runtime view agree at the
intended call site -/

theorem baseEntityTransformerJs_agrees (e : Entity) :
    baseEntityTransformerJs e.toJsObject = (baseEntityTransformer e).toJsObject := by
  unfold baseEntityTransformerJs baseEntityTransformer Entity.toJsObject BaseEntity.toJsObject
  by_cases ht : e.entityType = "http://schema.org/MediaObject"
  · by_cases hf : truthyOptStr e.fileId <;> simp [ht, hf]
  · simp [ht]

/-! ## Claim theorems -/

/-- C5: for every search request with a bounding box, the compiled
geo-bounding-box filter sets `top_left` to (topRight.lat,
bottomLeft.lng) and `bottom_right` to (bottomLeft.lat, topRight.lng);
the geohash-grid aggregation, when present, uses the same remapped
bounds; in particular for topRight = (51.5, 0.1) and bottomLeft =
(51.4, 0.0) the compiled `top_left` is (51.5, 0.0) and `bottom_right`
is (51.4, 0.1). -/
theorem geo_bounding_box_corner_remap :
    (∀ (st : SearchType) (q : String) (fs : Option (List (String × List String)))
        (bb : BoundingBox),
      geoFilterOf (buildQuery st q fs (some bb)) =
        some { top_left := { lat := bb.topRight.lat, lon := bb.bottomLeft.lng }
               bottom_right := { lat := bb.bottomLeft.lat, lon := bb.topRight.lng } }) ∧
    (∀ (p : Nat) (bb : BoundingBox),
      (buildAggregations p (some bb)).geohash_grid =
        if p ≠ 0 then
          some { field := "location", precision := p
                 bounds :=
                   { top_left := { lat := bb.topRight.lat, lon := bb.bottomLeft.lng }
                     bottom_right := { lat := bb.bottomLeft.lat, lon := bb.topRight.lng } } }
        else none) ∧
    geoFilterOf
        (buildQuery .basic "test"
          (some [("inLanguage", ["en"])])
          (some { topRight := { lat := 51.5, lng := 0.1 }
                  bottomLeft := { lat := 51.4, lng := 0.0 } })) =
      some { top_left := { lat := 51.5, lon := 0.0 }
             bottom_right := { lat := 51.4, lon := 0.1 } } := by
  refine ⟨?_, ?_, ?_⟩
  · intro st q fs bb
    cases fs with
    | none => cases st <;> rfl
    | some l =>
        cases st <;>
          simpa [buildQuery, geoFilterOf] using
            findGeoBounds_terms_append l
              [QueryClause.geoBoundingBox "location"
                { top_left := { lat := bb.topRight.lat, lon := bb.bottomLeft.lng }
                  bottom_right := { lat := bb.bottomLeft.lat, lon := bb.topRight.lng } }]
  · intro p bb
    simp [buildAggregations]
  · rfl

/-- C10: with a bounding box present, the compiled aggregations include
the geohash-grid aggregation iff the geohash precision is at least 1
(precision 0 is accepted but disables it), while the four fixed terms
aggregations (inLanguage, mediaType, communicationMode, entityType; 20
buckets each) are requested unconditionally. -/
theorem geohash_grid_iff_positive_precision :
    (∀ (p : Nat) (bb : BoundingBox),
      ((buildAggregations p (some bb)).geohash_grid.isSome = true ↔ 1 ≤ p)) ∧
    (∀ (p : Nat) (obb : Option BoundingBox),
      (buildAggregations p obb).inLanguage = { field := "inLanguage", size := 20 } ∧
      (buildAggregations p obb).mediaType = { field := "mediaType", size := 20 } ∧
      (buildAggregations p obb).communicationMode =
        { field := "communicationMode", size := 20 } ∧
      (buildAggregations p obb).entityType = { field := "entityType", size := 20 }) := by
  constructor
  · intro p bb
    by_cases hp : p = 0 <;> simp [buildAggregations, hp, Nat.one_le_iff_ne_zero]
  · intro p obb
    exact ⟨rfl, rfl, rfl, rfl⟩

/-- Witness for C10 at precision 5 / precision 0. -/
theorem geohash_grid_iff_positive_precision_witness :
    ((buildAggregations 5
        (some { topRight := { lat := 51.5, lng := 0.1 }
                bottomLeft := { lat := 51.4, lng := 0.0 } })).geohash_grid.isSome = true) ∧
    ((buildAggregations 0
        (some { topRight := { lat := 51.5, lng := 0.1 }
                bottomLeft := { lat := 51.4, lng := 0.0 } })).geohash_grid.isSome ≠ true) := by
  constructor
  · exact (geohash_grid_iff_positive_precision.1 5 _).mpr (by norm_num)
  · intro hc
    exact absurd ((geohash_grid_iff_positive_precision.1 0 _).mp hc) (by norm_num)

/-- C2: registering the plugin without an access transformer (entity
`accessTransformer` or `fileAccessTransformer`) throws at
registration/setup time: `appRegister` returns an error and never the
list of registered routes, so no request handler exists to serve a
request. -/
theorem missing_access_transformer_fails_registration
    (opts : AppOptions)
    (h : opts.accessTransformer = none ∨ opts.fileAccessTransformer = none) :
    ∃ msg, appRegister opts = Except.error msg := by
  unfold appRegister
  rcases h with h | h <;> rw [h] <;>
    repeat' first
      | exact ⟨_, rfl⟩
      | split

/-- Witness for C2: concrete options missing only the entity access
transformer are rejected. -/
theorem missing_access_transformer_fails_registration_witness :
    ∃ msg,
      appRegister
        { prisma := some (), opensearch := some (), accessTransformer := none
          entityTransformers := none, fileAccessTransformer := some ()
          fileTransformers := none, fileHandler := some (), roCrateHandler := some () } =
        Except.error msg :=
  missing_access_transformer_fails_registration _ (Or.inl rfl)

/-- A concrete file row used by the content-delivery witnesses. -/
def sampleFile : FileRecord :=
  { fileId := "http://example.com/file/1", filename := "f.wav"
    mediaType := "audio/wav", size := 4, memberOf := "http://example.com/entity/c"
    rootCollection := "http://example.com/entity/c"
    contentLicenseId := "https://creativecommons.org/licenses/by/4.0/" }

/-- A concrete one-row file store. -/
def sampleFileStore : List FileRecord := [sampleFile]

/-- A concrete collection entity row. -/
def sampleCollection : Entity :=
  { rocrateId := "http://example.com/entity/c", name := "Collection C", description := ""
    entityType := "http://pcdm.org/models#Collection", fileId := none
    memberOf := none, rootCollection := none
    metadataLicenseId := "https://creativecommons.org/licenses/by/4.0/"
    contentLicenseId := "https://creativecommons.org/licenses/by/4.0/" }

/-- A concrete handler metadata block. -/
def sampleMetadata : FileMetadata :=
  { contentType := "audio/wav", contentLength := 4, etag := none, lastModified := none }

/-- A concrete parsed file-route query with defaults. -/
def sampleQuery : FileQuery :=
  { disposition := "inline", filename := none, noRedirect := false }

/-- C3: for file get, file head and RO-Crate get requests whose record
exists, a handler returning the falsy sentinel yields 404 while a
handler throwing yields 500, and the two statuses are distinct. -/
theorem falsy_vs_throw_distinct_statuses
    (fstore : List FileRecord) (estore : List Entity) (fid eid : String)
    (query : FileQuery) (f : FileRecord) (e : Entity) (msg : String)
    (hf : findFirstFile fstore fid = some f)
    (he : findFirstEntity estore eid = some e) :
    (fileGetRoute fstore fid query (fun _ => .falsy)).status = 404 ∧
    (fileGetRoute fstore fid query (fun _ => .throws msg)).status = 500 ∧
    (fileHeadRoute fstore fid (fun _ => .falsy)).status = 404 ∧
    (fileHeadRoute fstore fid (fun _ => .throws msg)).status = 500 ∧
    (crateGetRoute estore eid (fun _ => .falsy)).status = 404 ∧
    (crateGetRoute estore eid (fun _ => .throws msg)).status = 500 ∧
    (404 : Nat) ≠ 500 := by
  simp [fileGetRoute, fileHeadRoute, crateGetRoute, hf, he]

/-- Witness for C3 at a concrete one-row store. -/
theorem falsy_vs_throw_distinct_statuses_witness :
    (fileGetRoute sampleFileStore "http://example.com/file/1" sampleQuery
        (fun _ => .falsy)).status = 404 ∧
    (crateGetRoute [sampleCollection] "http://example.com/entity/c"
        (fun _ => .throws "boom")).status = 500 :=
  have h := falsy_vs_throw_distinct_statuses sampleFileStore [sampleCollection]
    "http://example.com/file/1" "http://example.com/entity/c" sampleQuery
    sampleFile sampleCollection "boom" rfl rfl
  ⟨h.1, h.2.2.2.2.2.1⟩

/-- C4: a file-route handler returning `{type:'redirect', url}` yields
200 with JSON body `{location: url}` when `noRedirect` is true,
otherwise 302 with a `Location` header equal to `url`. -/
theorem redirect_result_noRedirect_behaviour
    (fstore : List FileRecord) (fid : String) (query : FileQuery)
    (f : FileRecord) (url : String)
    (hf : findFirstFile fstore fid = some f) :
    (query.noRedirect = true →
      fileGetRoute fstore fid query (fun _ => .ok (.redirect url)) =
        { status := 200, headers := [], body := .jsonLocation url }) ∧
    (query.noRedirect = false →
      fileGetRoute fstore fid query (fun _ => .ok (.redirect url)) =
        { status := 302, headers := [("Location", url)], body := .empty }) := by
  constructor <;> intro hq <;> simp [fileGetRoute, hf, hq]

/-- Witness for C4 at a concrete request with and without the flag. -/
theorem redirect_result_noRedirect_behaviour_witness :
    (fileGetRoute sampleFileStore "http://example.com/file/1"
        { disposition := "inline", filename := none, noRedirect := true }
        (fun _ => .ok (.redirect "https://cdn.example.com/f.wav"))) =
      { status := 200, headers := [], body := .jsonLocation "https://cdn.example.com/f.wav" } ∧
    (fileGetRoute sampleFileStore "http://example.com/file/1" sampleQuery
        (fun _ => .ok (.redirect "https://cdn.example.com/f.wav"))) =
      { status := 302, headers := [("Location", "https://cdn.example.com/f.wav")]
        body := .empty } :=
  ⟨(redirect_result_noRedirect_behaviour sampleFileStore "http://example.com/file/1"
      { disposition := "inline", filename := none, noRedirect := true }
      sampleFile "https://cdn.example.com/f.wav" rfl).1 rfl,
   (redirect_result_noRedirect_behaviour sampleFileStore "http://example.com/file/1"
      sampleQuery sampleFile "https://cdn.example.com/f.wav" rfl).2 rfl⟩

/-- C7: a file-route handler returning a `FilePath` result with an
`accelPath` yields a 200 whose headers carry the file metadata plus
`X-Accel-Redirect` set to the accel path, with an empty body; without
`accelPath` the 200 response body is the byte stream of the file at the
returned path. -/
theorem filepath_accel_offload_vs_stream
    (fstore : List FileRecord) (fid : String) (query : FileQuery)
    (f : FileRecord) (path : String) (metadata : FileMetadata) (ap : String)
    (hf : findFirstFile fstore fid = some f) (hap : ap ≠ "") :
    ((fileGetRoute fstore fid query (fun _ => .ok (.file path metadata (some ap)))).status
        = 200 ∧
      ("X-Accel-Redirect", ap) ∈
        (fileGetRoute fstore fid query (fun _ => .ok (.file path metadata (some ap)))).headers ∧
      ("Content-Type", metadata.contentType) ∈
        (fileGetRoute fstore fid query (fun _ => .ok (.file path metadata (some ap)))).headers ∧
      ("Content-Length", toString metadata.contentLength) ∈
        (fileGetRoute fstore fid query (fun _ => .ok (.file path metadata (some ap)))).headers ∧
      (fileGetRoute fstore fid query (fun _ => .ok (.file path metadata (some ap)))).body
        = .empty) ∧
    ((fileGetRoute fstore fid query (fun _ => .ok (.file path metadata none))).status = 200 ∧
      (fileGetRoute fstore fid query (fun _ => .ok (.file path metadata none))).body
        = .fileBody path) := by
  have hts : truthyOptStr (some ap) = true := by
    cases h : ap.isEmpty with
    | true => exact absurd ((String.isEmpty_iff ap).mp h) hap
    | false => simp [truthyOptStr, h]
  refine ⟨?_, ?_⟩
  · simp [fileGetRoute, hf, hts, setFileHeaders]
  · constructor <;> simp [fileGetRoute, hf, truthyOptStr]

/-- Witness for C7 at a concrete request, with and without an accel
path. -/
theorem filepath_accel_offload_vs_stream_witness :
    ("X-Accel-Redirect", "/protected/f.wav") ∈
      (fileGetRoute sampleFileStore "http://example.com/file/1" sampleQuery
          (fun _ => .ok (.file "/data/f.wav" sampleMetadata
            (some "/protected/f.wav")))).headers ∧
    (fileGetRoute sampleFileStore "http://example.com/file/1" sampleQuery
        (fun _ => .ok (.file "/data/f.wav" sampleMetadata none))).body =
      .fileBody "/data/f.wav" :=
  ⟨(filepath_accel_offload_vs_stream sampleFileStore "http://example.com/file/1"
      sampleQuery sampleFile "/data/f.wav" sampleMetadata "/protected/f.wav"
      rfl (by decide)).1.2.1,
   (filepath_accel_offload_vs_stream sampleFileStore "http://example.com/file/1"
      sampleQuery sampleFile "/data/f.wav" sampleMetadata "x"
      rfl (by decide)).2.2⟩

/-- The ref-id collection fold leaves the accumulator unchanged on a
batch with no truthy references. -/
theorem collectRefIds_foldl_id (entities : List RefRecord)
    (h : ∀ e ∈ entities,
      truthyOptStr e.memberOf = false ∧ truthyOptStr e.rootCollection = false) :
    ∀ acc : List String,
      entities.foldl
        (fun acc e =>
          let acc := if truthyOptStr e.memberOf then setAdd acc (e.memberOf.getD "") else acc
          if truthyOptStr e.rootCollection then setAdd acc (e.rootCollection.getD "")
          else acc)
        acc = acc := by
  induction entities with
  | nil => intro acc; rfl
  | cons a t ih =>
      intro acc
      have ha := h a (by simp)
      simp only [List.foldl_cons, ha.1, ha.2, Bool.false_eq_true, if_false]
      exact ih (fun e he => h e (by simp [he])) acc

/-- Lookup via `jsMapGet` misses every key carried by no entry. -/
theorem jsMapGet_eq_none {α : Type} (entries : List (String × α)) (k : String)
    (h : ∀ p ∈ entries, p.1 ≠ k) : jsMapGet entries k = none := by
  unfold jsMapGet
  have H : ∀ acc : Option α,
      entries.foldl (fun acc p => if p.1 = k then some p.2 else acc) acc = acc := by
    induction entries with
    | nil => intro acc; rfl
    | cons a t ih =>
        intro acc
        have ha := h a (by simp)
        simp only [List.foldl_cons, ha, if_false]
        exact ih (fun p hp => h p (by simp [hp])) acc
  exact H none

/-- C9: the reference resolver issues at most one batched store lookup;
an empty batch, or one with no truthy `memberOf`/`rootCollection`
values, returns an empty map with zero store round trips; and an
identifier absent from the store is simply absent from the returned
map. -/
theorem resolve_references_single_batched_lookup
    (entities : List RefRecord) (store : List Entity) :
    (resolveEntityReferences entities store).1 ≤ 1 ∧
    (entities = [] → resolveEntityReferences entities store = (0, [])) ∧
    ((∀ e ∈ entities,
        truthyOptStr e.memberOf = false ∧ truthyOptStr e.rootCollection = false) →
      resolveEntityReferences entities store = (0, [])) ∧
    (∀ id, (∀ e ∈ store, e.rocrateId ≠ id) →
      jsMapGet (resolveEntityReferences entities store).2 id = none) := by
  refine ⟨?_, ?_, ?_, ?_⟩
  · simp only [resolveEntityReferences]
    split <;> simp
  · intro h
    subst h
    rfl
  · intro h
    unfold resolveEntityReferences collectRefIds
    rw [collectRefIds_foldl_id entities h]
    rfl
  · intro id h
    simp only [resolveEntityReferences]
    split
    · rfl
    · apply jsMapGet_eq_none
      intro p hp
      simp only [List.mem_map] at hp
      obtain ⟨r, hr, rfl⟩ := hp
      exact h r (List.mem_filter.mp hr).1

/-- Witness for C9: no-ref batch short-circuits; a missing identifier
is absent from the returned map. -/
theorem resolve_references_single_batched_lookup_witness :
    resolveEntityReferences
        [{ memberOf := none, rootCollection := none }] [sampleCollection] = (0, []) ∧
    jsMapGet
        (resolveEntityReferences
          [{ memberOf := some "http://example.com/entity/deleted", rootCollection := none }]
          [sampleCollection]).2
        "http://example.com/entity/missing" = none :=
  ⟨(resolve_references_single_batched_lookup _ _).2.2.1 (by decide),
   (resolve_references_single_batched_lookup _ _).2.2.2
     "http://example.com/entity/missing" (by decide)⟩

/-- A stage-1 output value (BaseEntity-shaped object, as the runtime
sees it): the base transformation of a concrete collection row. -/
def sampleBaseShaped : JsEntityObject :=
  baseEntityTransformerJs sampleCollection.toJsObject

/-- C8 counterexample: re-applying stage 1 to a BaseEntity-shaped
object does not leave `id` unchanged — the transformer reads `id` from
the `rocrateId` field, which the transformed shape no longer carries,
so `id` collapses to `undefined`. -/
theorem base_transformer_reapplication_changes_id :
    (baseEntityTransformerJs sampleBaseShaped).id ≠ sampleBaseShaped.id ∧
    (baseEntityTransformerJs sampleBaseShaped).id = none ∧
    sampleBaseShaped.id = some "http://example.com/entity/c" := by
  refine ⟨?_, rfl, rfl⟩
  decide

/-- C8 amended: applying stage 1 a second time to any object leaves the
owned fields other than `id` (name, description, entityType, memberOf,
rootCollection, metadataLicenseId, contentLicenseId) unchanged, while
`id` becomes `undefined` because it is read from the store-side
`rocrateId` field that the transformed shape lacks. -/
theorem base_transformer_second_application_fields (o : JsEntityObject) :
    (baseEntityTransformerJs (baseEntityTransformerJs o)).name =
      (baseEntityTransformerJs o).name ∧
    (baseEntityTransformerJs (baseEntityTransformerJs o)).description =
      (baseEntityTransformerJs o).description ∧
    (baseEntityTransformerJs (baseEntityTransformerJs o)).entityType =
      (baseEntityTransformerJs o).entityType ∧
    (baseEntityTransformerJs (baseEntityTransformerJs o)).memberOf =
      (baseEntityTransformerJs o).memberOf ∧
    (baseEntityTransformerJs (baseEntityTransformerJs o)).rootCollection =
      (baseEntityTransformerJs o).rootCollection ∧
    (baseEntityTransformerJs (baseEntityTransformerJs o)).metadataLicenseId =
      (baseEntityTransformerJs o).metadataLicenseId ∧
    (baseEntityTransformerJs (baseEntityTransformerJs o)).contentLicenseId =
      (baseEntityTransformerJs o).contentLicenseId ∧
    (baseEntityTransformerJs (baseEntityTransformerJs o)).id = none := by
  by_cases h1 : o.entityType = some "http://schema.org/MediaObject" <;>
    by_cases h2 : truthyOptStr o.fileId = true <;>
      simp [baseEntityTransformerJs, h1, h2]

/-- The dangling parent identifier used in the drift scenarios (the
repo's own test fixture value). -/
def deletedRefId : String := "http://example.com/entity/deleted"

/-- An entity whose `memberOf` and `rootCollection` point at a record
that no longer exists in the store. -/
def danglingChild : Entity :=
  { rocrateId := "http://example.com/entity/1", name := "Test Entity 1"
    description := "Entity with missing parent"
    entityType := "http://pcdm.org/models#Object", fileId := none
    memberOf := some deletedRefId, rootCollection := some deletedRefId
    metadataLicenseId := "https://creativecommons.org/licenses/by/4.0/"
    contentLicenseId := "https://creativecommons.org/licenses/by/4.0/" }

/-- A store holding only the dangling child (its parent was deleted). -/
def driftStore : List Entity := [danglingChild]

/-- A search hit for the dangling child. -/
def driftHit : SearchHit :=
  { rocrateId := some "http://example.com/entity/1", score := 1, highlight := none }

/-- C1 evaluated at the failing input: the single-entity route resolves
the dangling `memberOf`/`rootCollection` to `null` as claimed, but the
search route and the entities-listing route — which never call the
reference resolver — return the raw identifier string
`http://example.com/entity/deleted` instead of `null`. -/
theorem dangling_reference_null_only_in_entity_route :
    ((entityRouteStandardEntity driftStore "http://example.com/entity/1").map
        (fun se => (se.memberOf, se.rootCollection))) = some (none, none) ∧
    ((searchProcessHits AllPublicAccessTransformerBase [] driftStore [driftHit]).toOption.map
        (fun r => r.1.map (fun i => i.result.memberOf))) = some [some deletedRefId] ∧
    ((entitiesRouteTransform AllPublicAccessTransformerBase [] driftStore).map
        (fun r => r.memberOf)) = [some deletedRefId] := by
  refine ⟨rfl, rfl, rfl⟩

/-- In the entity map the search route builds (the store filtered to
the hit identifiers), lookup of any identifier that is itself among the
hit identifiers agrees with a lookup over the whole store. -/
theorem searchEntityMap_get (store : List Entity) (hits : List SearchHit) (id : String)
    (hid : (hitRocrateIds hits).contains id = true) :
    jsMapGet (searchEntityMap store hits) id = storeLookup store id := by
  unfold searchEntityMap storeLookup jsMapGet
  suffices H : ∀ acc : Option Entity,
      ((store.filter (fun e => (hitRocrateIds hits).contains e.rocrateId)).map
          (fun e => (e.rocrateId, e))).foldl
        (fun acc p => if p.1 = id then some p.2 else acc) acc =
      (store.map (fun e => (e.rocrateId, e))).foldl
        (fun acc p => if p.1 = id then some p.2 else acc) acc by
    exact H none
  induction store with
  | nil => intro acc; rfl
  | cons e t ih =>
      intro acc
      by_cases hk : (hitRocrateIds hits).contains e.rocrateId = true
      · simp only [List.filter_cons, hk, if_true, List.map_cons, List.foldl_cons]
        exact ih _
      · have hne : e.rocrateId ≠ id := by
          intro hEq
          rw [hEq] at hk
          exact hk hid
        simp only [List.filter_cons, hk, Bool.false_eq_true, if_false, List.map_cons,
          List.foldl_cons, hne, if_neg]
        exact ih _

/-- A hit with a truthy identifier contributes that identifier to the
collected hit-identifier list. -/
theorem mem_hitRocrateIds {hits : List SearchHit} {hh : SearchHit}
    (hmem : hh ∈ hits) (ht : truthyOptStr hh.rocrateId = true) :
    (hitRocrateIds hits).contains (hh.rocrateId.getD "") = true := by
  obtain ⟨s, hs⟩ : ∃ s, hh.rocrateId = some s := by
    cases hr : hh.rocrateId with
    | none => rw [hr] at ht; exact absurd ht (by simp [truthyOptStr])
    | some s => exact ⟨s, rfl⟩
  rw [hs] at ht
  rw [hs, Option.getD_some]
  exact List.elem_eq_true_of_mem
    (List.mem_filterMap.mpr ⟨hh, hmem, by simp [hs, ht]⟩)

/-- Traversal via `mapM` over `Except` succeeds pointwise: if every element maps to
an ok value, the whole traversal is ok with the mapped list. -/
theorem mapM_ok_of_forall {α β ε : Type} (l : List α) (f : α → Except ε β) (g : α → β)
    (h : ∀ a ∈ l, f a = Except.ok (g a)) : l.mapM f = Except.ok (l.map g) := by
  induction l with
  | nil => rfl
  | cons a t ih =>
      rw [List.mapM_cons, h a (by simp), List.map_cons,
        ih (fun x hx => h x (by simp [hx]))]
      rfl

/-- The expected per-hit outcome of the search reconciliation, phrased
against a whole-store lookup: the transformed item when the hit's
identifier has a store record, otherwise the drift warning. -/
def searchHitOutcome (accessT : BaseEntity → AuthorisedBaseEntity)
    (entityTs : List (AuthorisedBaseEntity → AuthorisedBaseEntity))
    (store : List Entity) (hh : SearchHit) :
    Option SearchResultItem × Option String :=
  ((storeLookup store (hh.rocrateId.getD "")).map (fun e =>
      { result := searchPipeline accessT entityTs e
        searchExtra := { score := hh.score, highlight := hh.highlight } }),
   match storeLookup store (hh.rocrateId.getD "") with
   | none => some ("Entity " ++ hh.rocrateId.getD "" ++
       " found in OpenSearch but not in database")
   | some _ => none)

/-- C6: when every hit carries an identifier, the search reconciliation
never fails: hits whose identifier has no store record are dropped from
the entities array, each with exactly one drift warning, and every
remaining hit is returned (in order) with its transformed entity and
search metadata. -/
theorem search_drift_hits_dropped_with_warning
    (accessT : BaseEntity → AuthorisedBaseEntity)
    (entityTs : List (AuthorisedBaseEntity → AuthorisedBaseEntity))
    (store : List Entity) (hits : List SearchHit)
    (h : ∀ hh ∈ hits, truthyOptStr hh.rocrateId = true) :
    searchProcessHits accessT entityTs store hits =
      Except.ok
        (hits.filterMap (fun hh =>
          (storeLookup store (hh.rocrateId.getD "")).map (fun e =>
            { result := searchPipeline accessT entityTs e
              searchExtra := { score := hh.score, highlight := hh.highlight } })),
         hits.filterMap (fun hh =>
          match storeLookup store (hh.rocrateId.getD "") with
          | none => some ("Entity " ++ hh.rocrateId.getD "" ++
              " found in OpenSearch but not in database")
          | some _ => none)) := by
  have hper : ∀ hh ∈ hits,
      (if !truthyOptStr hh.rocrateId then
        Except.error "Missing rocrateId in search hit"
      else
        let id := hh.rocrateId.getD ""
        match jsMapGet (searchEntityMap store hits) id with
        | none =>
            Except.ok (none,
              some ("Entity " ++ id ++ " found in OpenSearch but not in database"))
        | some dbEntity =>
            let standardEntity := baseEntityTransformer dbEntity
            let authorisedEntity := accessT standardEntity
            let result := applyEntityTransformers entityTs authorisedEntity
            Except.ok
              (some { result := result
                      searchExtra := { score := hh.score, highlight := hh.highlight } },
               none)) =
      Except.ok (ε := String) (searchHitOutcome accessT entityTs store hh) := by
    intro hh hmem
    have ht := h hh hmem
    rw [ht]
    have hget := searchEntityMap_get store hits (hh.rocrateId.getD "")
      (mem_hitRocrateIds hmem ht)
    simp only [Bool.not_true, Bool.false_eq_true, if_false, hget]
    unfold searchHitOutcome
    cases storeLookup store (hh.rocrateId.getD "") <;> rfl
  have hmain : searchProcessHits accessT entityTs store hits =
      Except.ok
        ((hits.map (searchHitOutcome accessT entityTs store)).filterMap Prod.fst,
         (hits.map (searchHitOutcome accessT entityTs store)).filterMap Prod.snd) := by
    simp only [searchProcessHits]
    rw [mapM_ok_of_forall hits _ (searchHitOutcome accessT entityTs store) hper]
    rfl
  rw [hmain, List.filterMap_map, List.filterMap_map]
  rfl

/-- A search hit referencing an identifier with no store record. -/
def ghostHit : SearchHit :=
  { rocrateId := some "http://example.com/entity/gone", score := 2, highlight := none }

/-- Witness for C6: one reconciled hit and one drifted hit — the
request succeeds, the drifted hit is dropped with its warning, the
other is returned. -/
theorem search_drift_hits_dropped_with_warning_witness :
    searchProcessHits AllPublicAccessTransformerBase [] driftStore [driftHit, ghostHit] =
      Except.ok
        ([{ result := searchPipeline AllPublicAccessTransformerBase [] danglingChild
            searchExtra := { score := 1, highlight := none } }],
         ["Entity http://example.com/entity/gone found in OpenSearch but not in database"]) := by
  have h := search_drift_hits_dropped_with_warning AllPublicAccessTransformerBase []
    driftStore [driftHit, ghostHit] (by decide)
  exact h.trans (by rfl)

end Arocapi
